import Mathlib

/-!
Shallow embedding of `src/ophyd_async/epics/adcore/_core_logic.py`
(`ADBaseController`) and `src/ophyd_async/epics/adcore/_core_writer.py`
(`ADWriter`).  Asynchronous effects are modelled as explicit action traces
(lists of writes / waits / awaited handles); remote reads become explicit
parameters; fallible paths return `Except`.
-/

namespace AdCore

/-- Modelled from the spec: the `DetectorState` enumeration lives in
`_core_io.py`, which is not under `src/`.  The spec (section 3) lists the
states {Idle, Acquiring, Aborted, Error, Disconnected, Waiting, Aborting}. -/
inductive DetectorState where
  | Idle
  | Acquiring
  | Aborted
  | Error
  | Disconnected
  | Waiting
  | Aborting
  deriving DecidableEq, Repr

/-- Modelled from the spec: string rendering of a detector state as it appears
interpolated into the acquisition error message; `_core_io.py` (not under
`src/`) defines the enumeration values.  The exact rendering does not affect
any claim. -/
def DetectorState.str : DetectorState → String
  | DetectorState.Idle => "Idle"
  | DetectorState.Acquiring => "Acquiring"
  | DetectorState.Aborted => "Aborted"
  | DetectorState.Error => "Error"
  | DetectorState.Disconnected => "Disconnected"
  | DetectorState.Waiting => "Waiting"
  | DetectorState.Aborting => "Aborting"

/-- Embeds `DEFAULT_GOOD_STATES = frozenset([DetectorState.Idle,
DetectorState.Aborted])` from `_core_logic.py`. -/
def DEFAULT_GOOD_STATES : List DetectorState :=
  [DetectorState.Idle, DetectorState.Aborted]

/-- Modelled from the spec: `DEFAULT_TIMEOUT` is imported from the core
utilities, which are not under `src/`; the spec only calls it the default
per-operation timeout, so its value is symbolic here. -/
def DEFAULT_TIMEOUT : ℚ := 10

/-- Modelled from the spec: the trigger kind of a `TriggerSpec` is the
enumeration {internal, external} (spec section 3); the `DetectorTrigger`
enumeration itself lives outside `src/`. -/
inductive DetectorTrigger where
  | internal
  | external
  deriving DecidableEq, Repr

/-- Embeds the fields of `TriggerInfo` that `_core_logic.py` reads:
`trigger` and `total_number_of_triggers`. -/
structure TriggerInfo where
  trigger : DetectorTrigger
  total_number_of_triggers : Nat
  deriving DecidableEq, Repr

/-- State of an `ADBaseController` (`_core_logic.py`, `__init__`): the
configured good states, the frame timeout, and the stored arm status.
The arm status, when present, carries the eventual outcome of the
`complete_acquisition` task it wraps. -/
structure ADBaseController where
  good_states : List DetectorState
  frame_timeout : ℚ
  arm_status : Option (Except String Unit)

/-- Embeds `ADBaseController.__init__`: `frame_timeout = DEFAULT_TIMEOUT`
and no arm status stored. -/
def ADBaseController.init (good_states : List DetectorState) : ADBaseController :=
  { good_states := good_states
    frame_timeout := DEFAULT_TIMEOUT
    arm_status := none }

/-- Embeds `ADBaseController.get_deadtime`: the constant `0.002`. -/
def ADBaseController.get_deadtime (_c : ADBaseController) (_exposure : Option ℚ) : ℚ :=
  2 / 1000

/-- Writes performed by `prepare` (`_core_logic.py` lines 63-66). -/
inductive PrepareWrite where
  | num_images (n : Nat)
  | image_mode_multiple
  deriving DecidableEq, Repr

/-- Embeds `ADBaseController.prepare`: the assertion on the trigger kind
raises before anything else happens; on the internal path the frame timeout
is recomputed from the driver's acquire time (passed in as `acquire_time`)
and the two writes are issued.  The first component is the list of writes
performed. -/
def ADBaseController.prepare (c : ADBaseController) (acquire_time : ℚ)
    (ti : TriggerInfo) : List PrepareWrite × Except String ADBaseController :=
  if ti.trigger = DetectorTrigger.internal then
    ([PrepareWrite.num_images ti.total_number_of_triggers,
      PrepareWrite.image_mode_multiple],
     Except.ok { c with frame_timeout := DEFAULT_TIMEOUT + acquire_time })
  else
    ([],
     Except.error
       ("fly scanning (i.e. external triggering) is not supported for this device"))

/-- Writes performed by `set_exposure_time_and_acquire_period_if_supplied`
(`_core_logic.py` lines 99-102), each bounded by the given timeout. -/
inductive ExposureWrite where
  | acquire_time_write (value timeout : ℚ)
  | acquire_period_write (value timeout : ℚ)
  deriving DecidableEq, Repr

/-- Embeds `ADBaseController.set_exposure_time_and_acquire_period_if_supplied`:
a no-op when `exposure` is `None`; otherwise writes the acquire time and the
acquire period `exposure + get_deadtime(exposure)`, both bounded by
`timeout`. -/
def ADBaseController.set_exposure_time_and_acquire_period_if_supplied
    (c : ADBaseController) (exposure : Option ℚ) (timeout : ℚ) : List ExposureWrite :=
  match exposure with
  | none => []
  | some e =>
    [ExposureWrite.acquire_time_write e timeout,
     ExposureWrite.acquire_period_write (e + c.get_deadtime (some e)) timeout]

/-- Embeds the `complete_acquisition` closure inside
`start_acquiring_driver_and_ensure_status` (`_core_logic.py` lines 123-132):
after the stored status resolves, the terminal detector state is read; a
state outside `good_states` raises a `ValueError`.  The message reproduces
the source exactly: the first literal is an f-string ending in `" not"` and
the second adjacent literal `"in valid end states: \x7bself.good_states\x7d"`
has no `f` prefix, so its braces are literal text. -/
def complete_acquisition (good_states : List DetectorState)
    (state : DetectorState) : Except String Unit :=
  if state ∈ good_states then Except.ok ()
  else
    Except.error
      ("Final detector state " ++ DetectorState.str state ++ " not" ++
        "in valid end states: \x7bself.good_states\x7d")

/-- Embeds `ADBaseController.arm`: stores the status produced by
`start_acquiring_driver_and_ensure_status`, overwriting any previous one.
`final_state` is the detector state read after the acquire value settles
(a remote read, hence a parameter). -/
def ADBaseController.arm (c : ADBaseController) (final_state : DetectorState) :
    ADBaseController :=
  { c with arm_status := some (complete_acquisition c.good_states final_state) }

/-- Embeds `ADBaseController.wait_for_idle`: awaits the stored arm status if
one exists.  The first component counts the handles awaited, the second is
the outcome. -/
def ADBaseController.wait_for_idle (c : ADBaseController) :
    Nat × Except String Unit :=
  match c.arm_status with
  | none => (0, Except.ok ())
  | some r => (1, r)

/-- Embeds `event_model.StreamRange`: a half-open index interval. -/
structure StreamRange where
  start : Nat
  stop : Nat
  deriving DecidableEq, Repr

/-- Content of a composed `stream_resource` document, as assembled in
`ADWriter.collect_stream_docs` (`_core_writer.py` lines 116-148). -/
structure StreamResourceDoc where
  mimetype : String
  uri : String
  data_key : String
  chunk_shape : List Nat
  template : String
  deriving DecidableEq, Repr

/-- A document yielded by `collect_stream_docs`: a `stream_resource` or a
`stream_datum` (the datum's content is its index range against the session's
single resource). -/
inductive StreamAsset where
  | stream_resource (doc : StreamResourceDoc)
  | stream_datum (indices : StreamRange)
  deriving DecidableEq, Repr

/-- Remote values `collect_stream_docs` reads from the file plugin and the
providers: the file path and file name, the frame shape from the dataset
describer, and the device name from the name provider. -/
structure FileioEnv where
  file_path : String
  file_name : String
  frame_shape : List Nat
  device_name : String
  deriving DecidableEq, Repr

/-- State of an `ADWriter` (`_core_writer.py`, `__init__`): the file
extension and mimetype configured at construction, the emission cursor
`last_emitted`, the memoized resource, the index multiplier, and the stored
capture status (a handle identifier when present). -/
structure ADWriter where
  file_extension : String
  mimetype : String
  last_emitted : Nat
  emitted_resource : Option StreamResourceDoc
  multiplier : Nat
  capture_status : Option Nat
  filename_template : String
  deriving DecidableEq, Repr

/-- Embeds `ADWriter.__init__`: `last_emitted = 0`, no emitted resource, no
capture status, `multiplier = 1`, and the default filename template. -/
def ADWriter.init (file_extension mimetype : String) : ADWriter :=
  { file_extension := file_extension
    mimetype := mimetype
    last_emitted := 0
    emitted_resource := none
    multiplier := 1
    capture_status := none
    filename_template := "%s%s_%6.6d" }

/-- Embeds `ADWriter.begin_capture`'s effect on the writer state
(`_core_writer.py` line 80): after configuring the file plugin it writes
`capture = true` and stashes the resulting completion status.  `handle`
identifies that status. -/
def ADWriter.begin_capture (w : ADWriter) (handle : Nat) : ADWriter :=
  { w with capture_status := some handle }

/-- Embeds `ADWriter.open` (named `open`, a Lean keyword, in the source):
resets `emitted_resource` and `last_emitted`, then calls `begin_capture`.
The `multiplier` argument is accepted but `_multiplier` is never assigned
from it. -/
def ADWriter.open_writer (w : ADWriter) (_multiplier : Nat) (handle : Nat) :
    ADWriter :=
  ADWriter.begin_capture
    { w with emitted_resource := none, last_emitted := 0 } handle

/-- Embeds `ADWriter.get_indices_written`: the raw `num_captured` counter
divided (floor) by the stored multiplier. -/
def ADWriter.get_indices_written (w : ADWriter) (num_captured : Nat) : Nat :=
  num_captured / w.multiplier

/-- Embeds `ADWriter.observe_indices_written`: each observed raw counter
value is divided (floor) by the stored multiplier.  The lazy stream is
modelled on a finite list of observed raw values. -/
def ADWriter.observe_indices_written (w : ADWriter) (observed : List Nat) :
    List Nat :=
  List.map (fun n => n / w.multiplier) observed

/-- Embeds the resource composition inside `collect_stream_docs`
(`_core_writer.py` lines 117-146): the URI is the file URL of the absolute
directory path with a trailing slash, the template appends a six-digit index
and the extension to the file name, and the chunk shape prepends 1 to the
frame shape. -/
def ADWriter.compose_resource (w : ADWriter) (env : FileioEnv) :
    StreamResourceDoc :=
  { mimetype := w.mimetype
    uri := "file://localhost" ++ env.file_path ++ "/"
    data_key := env.device_name
    chunk_shape := 1 :: env.frame_shape
    template := env.file_name ++ "_\x7b:06d\x7d" ++ w.file_extension }

/-- Embeds `ADWriter.collect_stream_docs`: a no-op when `indices_written`
is zero; otherwise composes and yields the `stream_resource` exactly once
per session, then yields a `stream_datum` covering
`[last_emitted, indices_written)` when `indices_written > last_emitted`,
advancing the cursor.  Returns the yielded documents and the new state. -/
def ADWriter.collect_stream_docs (w : ADWriter) (env : FileioEnv)
    (indices_written : Nat) : List StreamAsset × ADWriter :=
  if indices_written ≠ 0 then
    let step1 : List StreamAsset × ADWriter :=
      match w.emitted_resource with
      | none =>
        let res := w.compose_resource env
        ([StreamAsset.stream_resource res],
         { w with emitted_resource := some res })
      | some _ => ([], w)
    if indices_written > step1.2.last_emitted then
      (step1.1 ++
        [StreamAsset.stream_datum
          { start := step1.2.last_emitted, stop := indices_written }],
       { step1.2 with last_emitted := indices_written })
    else
      (step1.1, step1.2)
  else
    ([], w)

/-- Sequential composition of `collect_stream_docs` calls within one
session: the concatenated documents and the final writer state. -/
def collect_trace (env : FileioEnv) : ADWriter → List Nat →
    List StreamAsset × ADWriter
  | w, [] => ([], w)
  | w, i :: is =>
    let r := w.collect_stream_docs env i
    let rest := collect_trace env r.2 is
    (r.1 ++ rest.1, rest.2)

/-- Index ranges of the `stream_datum` documents in a document list. -/
def datumRanges (docs : List StreamAsset) : List StreamRange :=
  List.filterMap
    (fun a =>
      match a with
      | StreamAsset.stream_datum r => some r
      | StreamAsset.stream_resource _ => none)
    docs

/-- Ranges form a forward chain from a cursor: each range starts at or after
the cursor, is non-empty, and the chain continues from its stop. -/
def chainedFrom : Nat → List StreamRange → Prop
  | _, [] => True
  | c, r :: rs => c ≤ r.start ∧ r.start < r.stop ∧ chainedFrom r.stop rs

/-- Actions performed by `ADWriter.close` (`_core_writer.py` lines 162-168),
in order: the `capture = false` write issued with `wait=False`, the bounded
wait for the capture value to read false, and (when a capture status is
stored) the await of that status. -/
inductive CloseAction where
  | set_capture_false_nowait
  | wait_capture_false (timeout : ℚ)
  | await_capture_status (handle : Nat)
  deriving DecidableEq, Repr

/-- Embeds `ADWriter.close`: writes `capture = false` without waiting,
waits for the value to settle to false bounded by `DEFAULT_TIMEOUT`, then
awaits the stored capture status if one exists. -/
def ADWriter.close (w : ADWriter) : List CloseAction :=
  CloseAction.set_capture_false_nowait ::
    CloseAction.wait_capture_false DEFAULT_TIMEOUT ::
      (match w.capture_status with
       | some h => [CloseAction.await_capture_status h]
       | none => [])

/-- Concrete file extension used for evaluation, the constructor default. -/
def tiffExt : String := ".tiff"

/-- Concrete mimetype used for evaluation, the constructor default. -/
def tiffMime : String := "multipart/related;type=image/tiff"

/-- Concrete remote environment used for evaluation. -/
def env0 : FileioEnv :=
  { file_path := "/data"
    file_name := "det"
    frame_shape := [2, 3]
    device_name := "det" }

/-- Concrete trigger specification with a non-internal kind. -/
def externalTrigger : TriggerInfo :=
  { trigger := DetectorTrigger.external
    total_number_of_triggers := 5 }

/-- C4: for every trigger specification whose kind is not internal,
`prepare` fails with the unsupported-trigger-mode error and performs no
writes to any device control point. -/
theorem prepare_rejects_external_trigger (c : ADBaseController) (t : ℚ)
    (ti : TriggerInfo) (h : ti.trigger ≠ DetectorTrigger.internal) :
    (c.prepare t ti).1 = [] ∧
    (c.prepare t ti).2 = Except.error
      ("fly scanning (i.e. external triggering) is not supported for this device") := by
  simp [ADBaseController.prepare, h]

/-- Witness for C4 at a concrete controller and external trigger. -/
theorem prepare_rejects_external_trigger_witness :
    ((ADBaseController.init DEFAULT_GOOD_STATES).prepare 1 externalTrigger).1 = [] ∧
    ((ADBaseController.init DEFAULT_GOOD_STATES).prepare 1 externalTrigger).2
      = Except.error
        ("fly scanning (i.e. external triggering) is not supported for this device") :=
  prepare_rejects_external_trigger (ADBaseController.init DEFAULT_GOOD_STATES) 1
    externalTrigger (by decide)

/-- C7: `set_exposure_time_and_acquire_period_if_supplied` is a no-op when
the exposure is absent; otherwise it writes `acquire_time = exposure` and
`acquire_period = exposure + get_deadtime(exposure)`, both bounded by the
given timeout. -/
theorem set_exposure_time_and_acquire_period_spec (c : ADBaseController)
    (e timeout : ℚ) :
    c.set_exposure_time_and_acquire_period_if_supplied none timeout = [] ∧
    c.set_exposure_time_and_acquire_period_if_supplied (some e) timeout
      = [ExposureWrite.acquire_time_write e timeout,
         ExposureWrite.acquire_period_write (e + c.get_deadtime (some e)) timeout] :=
  ⟨rfl, rfl⟩

/-- C8: `wait_for_idle` on a controller with no stored arm status returns
immediately: it awaits zero handles and succeeds. -/
theorem wait_for_idle_no_arm (c : ADBaseController) (h : c.arm_status = none) :
    c.wait_for_idle = (0, Except.ok ()) := by
  simp [ADBaseController.wait_for_idle, h]

/-- Witness for C8 at a freshly constructed controller. -/
theorem wait_for_idle_no_arm_witness :
    (ADBaseController.init DEFAULT_GOOD_STATES).wait_for_idle
      = (0, Except.ok ()) :=
  wait_for_idle_no_arm (ADBaseController.init DEFAULT_GOOD_STATES) rfl

/-- C3: evaluation at the failing input.  When the terminal state after a
successful arm is outside the configured good states, the raised error's
message is the literal concatenation of `" not"` with the non-f-string
`"in valid end states: \x7bself.good_states\x7d"`: it reads `notin` and
carries the brace text instead of the configured good states.  The good
path (terminal state in the good states) resolves without error. -/
theorem bad_terminal_state_message_is_literal :
    ((ADBaseController.init DEFAULT_GOOD_STATES).arm
        DetectorState.Error).wait_for_idle
      = (1, Except.error
          ("Final detector state Error notin valid end states: \x7bself.good_states\x7d")) ∧
    ((ADBaseController.init DEFAULT_GOOD_STATES).arm
        DetectorState.Idle).wait_for_idle
      = (1, Except.ok ()) := by
  constructor <;> rfl

/-- C6: after `begin_capture` stores a completion handle, `close` issues the
`capture = false` write without waiting, then waits for the capture value to
settle to false, then awaits the stored handle — in exactly that order. -/
theorem close_after_begin_capture (w : ADWriter) (h : Nat) :
    (w.begin_capture h).close
      = [CloseAction.set_capture_false_nowait,
         CloseAction.wait_capture_false DEFAULT_TIMEOUT,
         CloseAction.await_capture_status h] := rfl

/-- C10: `close` on a writer with no stored capture status still issues the
`capture = false` write and the bounded wait for the value to read false,
and awaits no completion handle. -/
theorem close_without_capture_status (w : ADWriter)
    (h : w.capture_status = none) :
    w.close = [CloseAction.set_capture_false_nowait,
               CloseAction.wait_capture_false DEFAULT_TIMEOUT] := by
  simp [ADWriter.close, h]

/-- Witness for C10 at a freshly constructed writer. -/
theorem close_without_capture_status_witness :
    (ADWriter.init tiffExt tiffMime).close
      = [CloseAction.set_capture_false_nowait,
         CloseAction.wait_capture_false DEFAULT_TIMEOUT] :=
  close_without_capture_status (ADWriter.init tiffExt tiffMime) rfl

/-- C9: `open` leaves the multiplier at its prior value, which is 1 for a
constructed writer, and the multiplier argument has no effect on the values
produced by `get_indices_written` or `observe_indices_written`. -/
theorem open_leaves_multiplier_at_one (w : ADWriter) (fe mt : String)
    (m n hnd hnd2 raw : Nat) (obs : List Nat) :
    (w.open_writer m hnd).multiplier = w.multiplier ∧
    ((ADWriter.init fe mt).open_writer m hnd).multiplier = 1 ∧
    ((ADWriter.init fe mt).open_writer m hnd).get_indices_written raw
      = ((ADWriter.init fe mt).open_writer n hnd2).get_indices_written raw ∧
    ((ADWriter.init fe mt).open_writer m hnd).observe_indices_written obs
      = ((ADWriter.init fe mt).open_writer n hnd2).observe_indices_written obs :=
  ⟨rfl, rfl, rfl, rfl⟩

/-- C2 counterexample: with multiplier 2 supplied to `open` and a raw
counter of 3, `get_indices_written` returns 3, not `3 / 2 = 1`, because
`open` never stores its multiplier argument. -/
theorem get_indices_written_ignores_open_multiplier :
    ((ADWriter.init tiffExt tiffMime).open_writer 2 0).get_indices_written 3 = 3 ∧
    ¬ ((ADWriter.init tiffExt tiffMime).open_writer 2 0).get_indices_written 3
        = 3 / 2 := by
  decide

/-- C2 amended: for every multiplier supplied to `open` and every raw
counter value in the claimed sets, `get_indices_written` divides by the
stored multiplier, which remains at its constructor value 1. -/
theorem get_indices_written_after_open (fe mt : String) (m hnd raw : Nat)
    (hm : m ∈ [1, 2, 4]) (hraw : raw ∈ [0, 1, 3, 7, 8]) :
    ((ADWriter.init fe mt).open_writer m hnd).get_indices_written raw
      = raw / 1 := rfl

/-- Witness for the amended C2 at multiplier 2 and raw counter 3. -/
theorem get_indices_written_after_open_witness :
    ((ADWriter.init tiffExt tiffMime).open_writer 2 0).get_indices_written 3
      = 3 / 1 :=
  get_indices_written_after_open tiffExt tiffMime 2 0 3 (by decide) (by decide)

/-- C1: for a freshly opened session, `collect_stream_docs 0` yields no
documents; the first call with `n > 0` yields exactly one `stream_resource`
followed by exactly one `stream_datum` covering `[0, n)`; a repeat call with
the same `n` yields nothing; a later call with `k > n` yields exactly one
`stream_datum` covering `[n, k)` and no new resource. -/
theorem collect_stream_docs_session (fe mt : String) (m hnd : Nat)
    (env : FileioEnv) (n k : Nat) (hn : 0 < n) (hk : n < k) :
    (((ADWriter.init fe mt).open_writer m hnd).collect_stream_docs env 0).1 = [] ∧
    (((ADWriter.init fe mt).open_writer m hnd).collect_stream_docs env n).1
      = [StreamAsset.stream_resource
           (((ADWriter.init fe mt).open_writer m hnd).compose_resource env),
         StreamAsset.stream_datum { start := 0, stop := n }] ∧
    ((((ADWriter.init fe mt).open_writer m hnd).collect_stream_docs env n).2.collect_stream_docs
        env n).1 = [] ∧
    ((((ADWriter.init fe mt).open_writer m hnd).collect_stream_docs env n).2.collect_stream_docs
        env k).1 = [StreamAsset.stream_datum { start := n, stop := k }] := by
  have hne : n ≠ 0 := by omega
  have hkne : k ≠ 0 := by omega
  refine ⟨?_, ?_, ?_, ?_⟩
  · simp [ADWriter.collect_stream_docs]
  · simp [ADWriter.collect_stream_docs, ADWriter.open_writer, ADWriter.begin_capture,
      ADWriter.init, ADWriter.compose_resource, hne, hn]
  · simp [ADWriter.collect_stream_docs, ADWriter.open_writer, ADWriter.begin_capture,
      ADWriter.init, ADWriter.compose_resource, hne, hn]
  · simp [ADWriter.collect_stream_docs, ADWriter.open_writer, ADWriter.begin_capture,
      ADWriter.init, ADWriter.compose_resource, hne, hn, hkne, hk]

/-- Witness for C1 at a concrete session with first call 1 and second call 2. -/
theorem collect_stream_docs_session_witness :
    ((((ADWriter.init tiffExt tiffMime).open_writer 1 0).collect_stream_docs
        env0 1).2.collect_stream_docs env0 2).1
      = [StreamAsset.stream_datum { start := 1, stop := 2 }] :=
  (collect_stream_docs_session tiffExt tiffMime 1 0 env0 1 2 (by decide)
    (by decide)).2.2.2

/-- Helper: `datumRanges` distributes over list append. -/
theorem datumRanges_append (a b : List StreamAsset) :
    datumRanges (a ++ b) = datumRanges a ++ datumRanges b :=
  List.filterMap_append a b _

/-- Helper: a range is among the datum ranges of a document list exactly
when the corresponding `stream_datum` document is in the list. -/
theorem mem_datumRanges (docs : List StreamAsset) (r : StreamRange) :
    r ∈ datumRanges docs ↔ StreamAsset.stream_datum r ∈ docs := by
  unfold datumRanges
  rw [List.mem_filterMap]
  constructor
  · rintro ⟨a, ha, hf⟩
    cases a <;> simp_all
  · intro h
    exact ⟨_, h, rfl⟩

/-- Helper: when `indices_written` is past the cursor, a single call emits
exactly the range `[last_emitted, indices_written)` and advances the cursor
to `indices_written`. -/
theorem collect_ranges_of_lt (w : ADWriter) (env : FileioEnv) (i : Nat)
    (h : w.last_emitted < i) :
    datumRanges (w.collect_stream_docs env i).1
        = [{ start := w.last_emitted, stop := i }] ∧
    (w.collect_stream_docs env i).2.last_emitted = i := by
  have hne : i ≠ 0 := by omega
  cases hres : w.emitted_resource with
  | none =>
    simp [ADWriter.collect_stream_docs, hne, hres, h, datumRanges]
  | some r =>
    simp [ADWriter.collect_stream_docs, hne, hres, h, datumRanges]

/-- Helper: when `indices_written` is not past the cursor, a single call
emits no datum range and leaves the cursor unchanged. -/
theorem collect_ranges_of_ge (w : ADWriter) (env : FileioEnv) (i : Nat)
    (h : ¬ w.last_emitted < i) :
    datumRanges (w.collect_stream_docs env i).1 = [] ∧
    (w.collect_stream_docs env i).2.last_emitted = w.last_emitted := by
  by_cases hne : i = 0
  · subst hne
    simp [ADWriter.collect_stream_docs, datumRanges]
  · cases hres : w.emitted_resource with
    | none =>
      simp [ADWriter.collect_stream_docs, hne, hres, h, datumRanges]
    | some r =>
      simp [ADWriter.collect_stream_docs, hne, hres, h, datumRanges]

/-- Helper: across any sequence of calls the emitted datum ranges chain
forward from the starting cursor and the cursor never decreases. -/
theorem collect_trace_chained (env : FileioEnv) :
    ∀ (calls : List Nat) (w : ADWriter),
      chainedFrom w.last_emitted (datumRanges (collect_trace env w calls).1) ∧
      w.last_emitted ≤ (collect_trace env w calls).2.last_emitted := by
  intro calls
  induction calls with
  | nil =>
    intro w
    simp [collect_trace, datumRanges, chainedFrom]
  | cons i is ih =>
    intro w
    obtain ⟨ihc, ihle⟩ := ih (w.collect_stream_docs env i).2
    by_cases h : w.last_emitted < i
    · obtain ⟨hd, hl⟩ := collect_ranges_of_lt w env i h
      rw [hl] at ihc ihle
      constructor
      · show chainedFrom w.last_emitted
          (datumRanges ((w.collect_stream_docs env i).1 ++
            (collect_trace env (w.collect_stream_docs env i).2 is).1))
        rw [datumRanges_append, hd, List.singleton_append]
        exact ⟨Nat.le_refl _, h, ihc⟩
      · show w.last_emitted ≤
          (collect_trace env (w.collect_stream_docs env i).2 is).2.last_emitted
        omega
    · obtain ⟨hd, hl⟩ := collect_ranges_of_ge w env i h
      rw [hl] at ihc ihle
      constructor
      · show chainedFrom w.last_emitted
          (datumRanges ((w.collect_stream_docs env i).1 ++
            (collect_trace env (w.collect_stream_docs env i).2 is).1))
        rw [datumRanges_append, hd, List.nil_append]
        exact ihc
      · show w.last_emitted ≤
          (collect_trace env (w.collect_stream_docs env i).2 is).2.last_emitted
        exact ihle

/-- C5: the `last_emitted` cursor is monotonically non-decreasing across
calls, a `stream_datum` is emitted by a call exactly when `indices_written`
exceeds the cursor, and across any sequence of calls the emitted half-open
ranges chain forward — each starts at or after the previous stop and is
non-empty — so they never overlap and never go backward. -/
theorem stream_datum_range_invariants (env : FileioEnv) (w : ADWriter)
    (calls : List Nat) (i : Nat) :
    w.last_emitted ≤ (w.collect_stream_docs env i).2.last_emitted ∧
    ((∃ r, StreamAsset.stream_datum r ∈ (w.collect_stream_docs env i).1) ↔
       w.last_emitted < i) ∧
    chainedFrom w.last_emitted (datumRanges (collect_trace env w calls).1) := by
  refine ⟨?_, ⟨?_, ?_⟩, (collect_trace_chained env calls w).1⟩
  · by_cases h : w.last_emitted < i
    · have := (collect_ranges_of_lt w env i h).2
      omega
    · have := (collect_ranges_of_ge w env i h).2
      omega
  · rintro ⟨r, hr⟩
    by_contra h
    have hmem : r ∈ datumRanges (w.collect_stream_docs env i).1 :=
      (mem_datumRanges _ r).mpr hr
    rw [(collect_ranges_of_ge w env i h).1] at hmem
    exact (List.not_mem_nil r) hmem
  · intro h
    refine ⟨{ start := w.last_emitted, stop := i }, ?_⟩
    have hmem : ({ start := w.last_emitted, stop := i } : StreamRange)
        ∈ datumRanges (w.collect_stream_docs env i).1 := by
      rw [(collect_ranges_of_lt w env i h).1]
      exact List.mem_singleton.mpr rfl
    exact (mem_datumRanges _ _).mp hmem

end AdCore
